import Mathlib

/-!
Verification of the asynchronous job coordinator of guy915/iLoveMD.

The repository contains four variants of the coordinator:
  * src/marker_server.py              (namespace MarkerLocal)  -- subprocess-based, in-memory jobs dict
  * src/huggingface-space/app.py      (namespace HfSpace)      -- in-process marker call, in-memory jobs dict
  * src/public/scripts/marker_server.py (namespace PublicLocal)-- in-process marker call, in-memory jobs dict
  * src/modal-deployment/modal_app.py (namespace ModalApp)     -- only its str_to_bool is needed here

Each variant's request handlers are straight-line Python; we embed them as
pure functions from (request id, request, collaborator behaviour, server
state) to (server state, response).  The external conversion collaborator
(the marker_single subprocess or the convert_single_pdf call) is opaque to
the coordinator, so it enters the embedding as an explicit behaviour
parameter describing what it does on this run.
-/

/-- Python's `str.lower()` (ASCII case folding, which is all the sources
rely on), as a structurally recursive map over the characters. -/
def pyLower (s : String) : String := String.mk (s.data.map Char.toLower)

/-- Python's `str.endswith(t)`. -/
def pyEndsWith (s t : String) : Bool :=
  s.data.reverse.take t.data.length == t.data.reverse

/-- Job lifecycle status: the values stored in the "status" field of a job
record ("processing" / "complete" / "error"). -/
inductive Status where
  | processing
  | complete
  | error
deriving DecidableEq, Repr

/-- The in-memory jobs mapping (`jobs` / `conversion_jobs` dict in the
Python sources): a partial map from request id to job record. -/
def Store (α : Type) : Type := String → Option α

/-- `jobs[request_id] = v` -/
def Store.set {α : Type} (s : Store α) (k : String) (v : α) : Store α :=
  fun q => if q = k then some v else s q

/-- `del jobs[request_id]` -/
def Store.del {α : Type} (s : Store α) (k : String) : Store α :=
  fun q => if q = k then none else s q

/-- The empty jobs mapping. -/
def Store.empty {α : Type} : Store α := fun _ => none

theorem Store.set_self {α : Type} (s : Store α) (k : String) (v : α) :
    Store.set s k v k = some v := by
  simp [Store.set]

theorem Store.set_other {α : Type} (s : Store α) (k q : String) (v : α) (h : q ≠ k) :
    Store.set s k v q = s q := by
  simp [Store.set, h]

theorem Store.del_self {α : Type} (s : Store α) (k : String) :
    Store.del s k k = none := by
  simp [Store.del]

/-- The set of filesystem artifacts (upload/output directories and files)
currently existing, at per-job granularity: `fs p = true` means artifact
path `p` exists. -/
def FS : Type := String → Bool

/-- mkdir / file write: the artifact now exists. -/
def FS.add (fs : FS) (p : String) : FS := fun q => if q = p then true else fs q

/-- shutil.rmtree / os.remove: the artifact no longer exists. -/
def FS.remove (fs : FS) (p : String) : FS := fun q => if q = p then false else fs q

/-- The empty filesystem. -/
def FS.empty : FS := fun _ => false

/-- Response of the Submit endpoint (`POST /marker` or `POST /convert`):
either a raised HTTPException with a status code and detail string, or the
JSON body `{success, request_id, request_check_url}`. -/
inductive SubmitResponse where
  | httpError (code : Nat) (detail : String)
  | accepted (success : Bool) (request_id : String) (request_check_url : String)
deriving DecidableEq, Repr

/-- Response of the Poll endpoint (`GET /status/{id}` or `GET /check/{id}`):
404, or the JSON body with the status and the optional markdown / error
fields exactly as the handler sets them. -/
inductive PollResponse where
  | notFound
  | view (status : Status) (markdown : Option String) (error : Option String)
deriving DecidableEq, Repr

namespace MarkerLocal

/-! ## Embedding of src/marker_server.py -/

/-- `str_to_bool` of src/marker_server.py (line 54):
`value.lower() in ('true', '1', 'yes')`.  Note: no `'on'`. -/
def str_to_bool (value : String) : Bool :=
  ["true", "1", "yes"].contains (pyLower value)

/-- The form fields of `POST /marker` (src/marker_server.py lines 70-79).
Optional[str] fields are `Option String`; the boolean options arrive as
raw strings, as in the source. -/
structure Req where
  filename : String
  output_format : String
  langs : Option String
  paginate : String
  format_lines : String
  use_llm : String
  disable_image_extraction : String
  redo_inline_math : String
  api_key : Option String
deriving DecidableEq, Repr

/-- One entry of the `jobs` dict (src/marker_server.py lines 134-141). -/
structure Job where
  status : Status
  pdf_path : String
  output_dir : String
  command : String
  markdown : Option String
  error : Option String
deriving DecidableEq, Repr

/-- `UPLOAD_DIR / request_id` (line 94). -/
def uploadDirOf (request_id : String) : String :=
  "/tmp/marker_uploads/" ++ request_id

/-- `OUTPUT_DIR / request_id` (line 95). -/
def outputDirOf (request_id : String) : String :=
  "/tmp/marker_outputs/" ++ request_id

/-- Behaviour of the spawned `marker_single` child process on this run:
it may run for `duration` seconds and exit with a return code, stderr
output, and a list of markdown files (their contents) written to the job
output directory; it may hang forever; or `subprocess.run` itself may
raise some other exception (e.g. the binary is missing). -/
inductive ChildBehavior where
  | runsFor (duration : Nat) (returncode : Int) (stderr : String) (mdFiles : List String)
  | hangs
  | raises (msg : String)
deriving DecidableEq, Repr

/-- Error outcome of `subprocess.run`. -/
inductive SubprocErr where
  | timeoutExpired
  | exc (msg : String)
deriving DecidableEq, Repr

/-- Result of `subprocess.run`: the completed-process data or a raised
exception, plus whether the child process is still running afterwards. -/
structure RunOutcome where
  result : Except SubprocErr (Int × String × List String)
  childRunning : Bool
deriving Repr

/-- `subprocess.run(cmd, ..., timeout=timeoutSec)` (lines 146-152).  Per
the Python library semantics embedded here: if the child finishes within
the timeout, its return code / stderr / output files are reported; if the
timeout expires (or the child would never finish), the child process is
killed and waited for, and TimeoutExpired is raised — so in every case no
child is left running. -/
def subprocessRun (timeoutSec : Nat) : ChildBehavior → RunOutcome
  | .runsFor d rc stderr mds =>
      if d ≤ timeoutSec then ⟨.ok (rc, stderr, mds), false⟩
      else ⟨.error .timeoutExpired, false⟩
  | .hangs => ⟨.error .timeoutExpired, false⟩
  | .raises m => ⟨.error (.exc m), false⟩

/-- The `cmd` list built at lines 113-126. -/
def buildCmd (pdf_path output_dir : String) (req : Req) : List String :=
  ["marker_single", pdf_path, output_dir, "--output_format", req.output_format]
  ++ (match req.langs with
      | some l => if l = "" then [] else ["--langs", l]
      | none => [])
  ++ (if str_to_bool req.paginate then ["--paginate"] else [])
  ++ (if str_to_bool req.disable_image_extraction then ["--disable_image_extraction"] else [])

/-- `" ".join(cmd)` -/
def joinSpace : List String → String
  | [] => ""
  | [x] => x
  | x :: xs => x ++ " " ++ joinSpace xs

/-- The job record as first stored at lines 134-141 (status "processing",
markdown and error both None). -/
def initJob (request_id : String) (req : Req) : Job :=
  let pdf_path := uploadDirOf request_id ++ "/" ++ req.filename
  { status := .processing
    pdf_path := pdf_path
    output_dir := outputDirOf request_id
    command := joinSpace (buildCmd pdf_path (outputDirOf request_id) req)
    markdown := none
    error := none }

/-- The runner's single mutation of the job record (lines 154-179): on
return code 0 with a markdown file, status "complete" and the markdown
field set; on return code 0 without one, the "No markdown file generated"
error; on a non-zero return code, the "Marker failed: ..." error; on
TimeoutExpired, the distinguished timeout message; on any other
exception, str(e). -/
def runnerUpdate (r : Except SubprocErr (Int × String × List String)) (job : Job) : Job :=
  match r with
  | .ok (rc, stderr, mds) =>
      if rc = 0 then
        match mds.head? with
        | some md => { job with status := .complete, markdown := some md }
        | none => { job with status := .error, error := some "No markdown file generated" }
      else
        { job with status := .error, error := some ("Marker failed: " ++ stderr) }
  | .error .timeoutExpired =>
      { job with status := .error, error := some "Conversion timed out (5 minutes)" }
  | .error (.exc m) =>
      { job with status := .error, error := some m }

/-- Server state: the `jobs` dict, the artifacts on disk, and whether the
child process spawned by the most recent submission is still running. -/
structure ServerState where
  jobs : Store Job
  fs : FS
  childRunning : Bool

/-- Fresh server state. -/
def initState : ServerState :=
  { jobs := Store.empty, fs := FS.empty, childRunning := false }

/-- `convert_pdf` (src/marker_server.py lines 70-192), the Submit handler.
Straight-line embedding: validation (line 87), temp directory and upload
creation (lines 94-103), job record creation (lines 134-141), then —
still inside the same handler, before any response is produced — the
`subprocess.run` call and the record update (lines 144-179), the
upload-directory cleanup in `finally` (lines 180-185), and finally the
JSON response (lines 188-192). -/
def convert_pdf (request_id : String) (req : Req) (child : ChildBehavior)
    (st : ServerState) : ServerState × SubmitResponse :=
  if req.filename = "" ∨ ¬ (pyEndsWith (pyLower req.filename) ".pdf") then
    (st, .httpError 400 "Only PDF files are supported")
  else
    let upDir := uploadDirOf request_id
    let outDir := outputDirOf request_id
    let job0 := initJob request_id req
    let fs1 := ((st.fs.add upDir).add outDir).add job0.pdf_path
    let jobs1 := st.jobs.set request_id job0
    let ro := subprocessRun 300 child
    let job1 := runnerUpdate ro.result job0
    let jobs2 := jobs1.set request_id job1
    let fs2 := (fs1.remove job0.pdf_path).remove upDir
    ({ jobs := jobs2, fs := fs2, childRunning := ro.childRunning },
     .accepted true request_id ("http://localhost:8000/status/" ++ request_id))

/-- `check_status` (src/marker_server.py lines 195-221), the Poll handler:
404 when the id is absent; a status-only body while processing; on
"complete" the markdown is attached, the output directory is removed and
the record deleted; on "error" the error is attached and the record
deleted (the output directory is NOT removed on this path). -/
def check_status (request_id : String) (st : ServerState) :
    ServerState × PollResponse :=
  match st.jobs request_id with
  | none => (st, .notFound)
  | some job =>
    match job.status with
    | .processing => (st, .view .processing none none)
    | .complete =>
        ({ st with jobs := st.jobs.del request_id, fs := st.fs.remove job.output_dir },
         .view .complete job.markdown none)
    | .error =>
        ({ st with jobs := st.jobs.del request_id },
         .view .error none job.error)

end MarkerLocal

/-- Python truthiness of an optional string: `not x` is true exactly when
the value is None or the empty string. -/
def pyFalsy : Option String → Bool
  | none => true
  | some s => s = ""

namespace HfSpace

/-! ## Embedding of src/huggingface-space/app.py -/

/-- `str_to_bool` of src/huggingface-space/app.py (lines 55-59): None maps
to False, otherwise `value.lower() in ('true', '1', 'yes', 'on')`. -/
def str_to_bool : Option String → Bool
  | none => false
  | some value => ["true", "1", "yes", "on"].contains (pyLower value)

/-- `MAX_PDF_FILE_SIZE = 200 * 1024 * 1024` (line 37). -/
def MAX_PDF_FILE_SIZE : Nat := 200 * 1024 * 1024

/-- `BASE_URL` default (line 20). -/
def BASE_URL : String := "https://guy915-marker-pdf-converter.hf.space"

/-- The form fields of `POST /convert` (lines 74-83), plus the byte length
of the uploaded content (the handler only inspects its length). -/
structure Req where
  filename : String
  content_size : Nat
  output_format : String
  langs : Option String
  paginate : String
  format_lines : String
  use_llm : String
  disable_image_extraction : String
  redo_inline_math : String
  geminiApiKey : Option String
deriving DecidableEq, Repr

/-- The `options` sub-dict of a job record (lines 132-142), including the
`_gemini_key` entry (modelled as an Option: `some` while the key is in the
dict with a non-None value, `none` after `del` or when stored as None). -/
structure Options where
  output_format : String
  langs : Option String
  paginate : Bool
  format_lines : Bool
  use_llm : Bool
  disable_image_extraction : Bool
  redo_inline_math : Bool
  gemini_key : Option String
deriving DecidableEq, Repr

/-- One entry of the `conversion_jobs` dict (lines 129-145). -/
structure Job where
  status : Status
  file_path : String
  options : Options
  markdown : Option String
  error : Option String
deriving DecidableEq, Repr

/-- The options snapshot as built at record-creation time (lines 132-142):
`"_gemini_key": geminiApiKey if use_llm_bool else None`. -/
def mkOptions (req : Req) : Options :=
  { output_format := req.output_format
    langs := req.langs
    paginate := str_to_bool (some req.paginate)
    format_lines := str_to_bool (some req.format_lines)
    use_llm := str_to_bool (some req.use_llm)
    disable_image_extraction := str_to_bool (some req.disable_image_extraction)
    redo_inline_math := str_to_bool (some req.redo_inline_math)
    gemini_key := if str_to_bool (some req.use_llm) then req.geminiApiKey else none }

/-- `UPLOAD_DIR / f"{request_id}.pdf"` (line 112). -/
def filePathOf (request_id : String) : String :=
  "/tmp/marker_uploads/" ++ request_id ++ ".pdf"

/-- The job record as first stored (lines 129-145). -/
def initJob (request_id : String) (req : Req) : Job :=
  { status := .processing
    file_path := filePathOf request_id
    options := mkOptions req
    markdown := none
    error := none }

/-- Behaviour of `convert_single_pdf` on this run: it returns the extracted
text, raises an exception, or never returns.  There is no deadline around
the call in this variant, so a hanging behaviour hangs the handler. -/
inductive ConvBehavior where
  | returns (text : String)
  | raises (msg : String)
  | hangs
deriving DecidableEq, Repr

/-- Outcome of `process_pdf` (lines 189-229) when it terminates: the text
or the propagated exception message, together with whether the uploaded
file was removed (`os.remove` runs only on the success path, before the
return; an exception propagates past it). -/
structure ProcResult where
  outcome : Except String String
  fileRemoved : Bool
deriving Repr

/-- `process_pdf` embedded: `none` when the conversion never returns (the
await never completes and nothing after it ever runs). -/
def process_pdf (b : ConvBehavior) : Option ProcResult :=
  match b with
  | .returns text => some { outcome := .ok text, fileRemoved := true }
  | .raises m => some { outcome := .error m, fileRemoved := false }
  | .hangs => none

/-- The runner's mutation of the job record (lines 154-164): on success,
status "complete" with the markdown; on exception, status "error" with
str(e); on both paths the `_gemini_key` entry is deleted from the stored
options. -/
def runnerUpdate (r : Except String String) (job : Job) : Job :=
  match r with
  | .ok text =>
      { job with status := .complete, markdown := some text,
                 options := { job.options with gemini_key := none } }
  | .error m =>
      { job with status := .error, error := some m,
                 options := { job.options with gemini_key := none } }

/-- Server state: the `conversion_jobs` dict and the artifacts on disk. -/
structure ServerState where
  jobs : Store Job
  fs : FS

/-- Fresh server state. -/
def initState : ServerState := { jobs := Store.empty, fs := FS.empty }

/-- `convert_pdf` (src/huggingface-space/app.py lines 73-186), the Submit
handler.  Validation: the .pdf check (line 91), the Gemini-key check when
LLM enhancement is enabled (lines 102-106), and the 200MB size check
(lines 118-122) each raise an HTTPException before any record or file is
created.  Otherwise the upload is written, the "processing" record stored,
and then — still inside this same handler — `process_pdf` is awaited and
the record updated (the comment at lines 148-150 admits processing is
synchronous) before the JSON response is returned.  The second component
is `none` when the conversion hangs: the handler never returns a response
and the "processing" record is what remains observable. -/
def convert_pdf (request_id : String) (req : Req) (b : ConvBehavior)
    (st : ServerState) : ServerState × Option SubmitResponse :=
  if ¬ (pyEndsWith (pyLower req.filename) ".pdf") then
    (st, some (.httpError 400 "Only PDF files are supported"))
  else if str_to_bool (some req.use_llm) && pyFalsy req.geminiApiKey then
    (st, some (.httpError 400 "Gemini API key is required when LLM Enhancement is enabled"))
  else if MAX_PDF_FILE_SIZE < req.content_size then
    (st, some (.httpError 413 "PDF file size exceeds the maximum allowed size of 200 MB"))
  else
    let fp := filePathOf request_id
    let job0 := initJob request_id req
    let fs1 := st.fs.add fp
    let jobs1 := st.jobs.set request_id job0
    match process_pdf b with
    | none => ({ jobs := jobs1, fs := fs1 }, none)
    | some pr =>
        let job1 := runnerUpdate pr.outcome job0
        let jobs2 := jobs1.set request_id job1
        let fs2 := if pr.fileRemoved then fs1.remove fp else fs1
        ({ jobs := jobs2, fs := fs2 },
         some (.accepted true request_id (BASE_URL ++ "/check/" ++ request_id)))

/-- `check_status` (lines 232-260), the Poll handler: 404 when the id is
absent; status-only body while processing; on a terminal status the
markdown or error is attached and the record deleted. -/
def check_status (request_id : String) (st : ServerState) :
    ServerState × PollResponse :=
  match st.jobs request_id with
  | none => (st, .notFound)
  | some job =>
    match job.status with
    | .processing => (st, .view .processing none none)
    | .complete =>
        ({ st with jobs := st.jobs.del request_id }, .view .complete job.markdown none)
    | .error =>
        ({ st with jobs := st.jobs.del request_id }, .view .error none job.error)

end HfSpace

namespace PublicLocal

/-! ## Embedding of src/public/scripts/marker_server.py -/

/-- `str_to_bool` of src/public/scripts/marker_server.py (lines 47-51):
identical to the HuggingFace variant (includes `'on'`). -/
def str_to_bool : Option String → Bool
  | none => false
  | some value => ["true", "1", "yes", "on"].contains (pyLower value)

/-- The form fields of `POST /marker` (lines 66-75). -/
structure Req where
  filename : String
  content_size : Nat
  output_format : String
  langs : Option String
  paginate : String
  format_lines : String
  use_llm : String
  disable_image_extraction : String
  redo_inline_math : String
  api_key : Option String
deriving DecidableEq, Repr

/-- The `options` sub-dict of a job record (lines 117-126): note the
`"api_key": api_key` entry is stored unconditionally and is never removed
afterwards. -/
structure Options where
  output_format : String
  langs : Option String
  paginate : Bool
  format_lines : Bool
  use_llm : Bool
  disable_image_extraction : Bool
  redo_inline_math : Bool
  api_key : Option String
deriving DecidableEq, Repr

/-- One entry of the `conversion_jobs` dict (lines 114-129). -/
structure Job where
  status : Status
  file_path : String
  options : Options
  markdown : Option String
  error : Option String
deriving DecidableEq, Repr

/-- The options snapshot as built at record-creation time (lines 117-126). -/
def mkOptions (req : Req) : Options :=
  { output_format := req.output_format
    langs := req.langs
    paginate := str_to_bool (some req.paginate)
    format_lines := str_to_bool (some req.format_lines)
    use_llm := str_to_bool (some req.use_llm)
    disable_image_extraction := str_to_bool (some req.disable_image_extraction)
    redo_inline_math := str_to_bool (some req.redo_inline_math)
    api_key := req.api_key }

/-- `UPLOAD_DIR / f"{request_id}.pdf"` (line 97). -/
def filePathOf (request_id : String) : String :=
  "/tmp/marker_uploads/" ++ request_id ++ ".pdf"

/-- The job record as first stored (lines 114-129). -/
def initJob (request_id : String) (req : Req) : Job :=
  { status := .processing
    file_path := filePathOf request_id
    options := mkOptions req
    markdown := none
    error := none }

/-- The runner's mutation of the job record (lines 140-168): on success,
status "complete" with the markdown (and the uploaded file removed,
lines 156-158); on any exception, status "error" with str(e) (the file is
not removed on that path).  The stored options — including `api_key` —
are untouched on both paths. -/
def runnerUpdate (r : Except String String) (job : Job) : Job :=
  match r with
  | .ok text => { job with status := .complete, markdown := some text }
  | .error m => { job with status := .error, error := some m }

/-- Server state: the `conversion_jobs` dict and the artifacts on disk. -/
structure ServerState where
  jobs : Store Job
  fs : FS

/-- Fresh server state. -/
def initState : ServerState := { jobs := Store.empty, fs := FS.empty }

/-- `convert_pdf` (src/public/scripts/marker_server.py lines 65-190), the
Submit handler.  Validation: only the .pdf check (line 83) and the 200MB
size check (lines 103-107); there is no check that an API key accompanies
`use_llm=true`.  The conversion runs inside the handler (no deadline), so
the second component is `none` when it hangs. -/
def convert_pdf (request_id : String) (req : Req) (b : HfSpace.ConvBehavior)
    (st : ServerState) : ServerState × Option SubmitResponse :=
  if ¬ (pyEndsWith (pyLower req.filename) ".pdf") then
    (st, some (.httpError 400 "Only PDF files are supported"))
  else if HfSpace.MAX_PDF_FILE_SIZE < req.content_size then
    (st, some (.httpError 413 "PDF file size exceeds the maximum allowed size of 200 MB"))
  else
    let fp := filePathOf request_id
    let job0 := initJob request_id req
    let fs1 := st.fs.add fp
    let jobs1 := st.jobs.set request_id job0
    match b with
    | .hangs => ({ jobs := jobs1, fs := fs1 }, none)
    | .returns text =>
        let job1 := runnerUpdate (.ok text) job0
        ({ jobs := jobs1.set request_id job1, fs := fs1.remove fp },
         some (.accepted true request_id ("http://localhost:8000/status/" ++ request_id)))
    | .raises m =>
        let job1 := runnerUpdate (.error m) job0
        ({ jobs := jobs1.set request_id job1, fs := fs1 },
         some (.accepted true request_id ("http://localhost:8000/status/" ++ request_id)))

/-- `check_status` (lines 193-218): identical shape to the HuggingFace
variant's Poll handler. -/
def check_status (request_id : String) (st : ServerState) :
    ServerState × PollResponse :=
  match st.jobs request_id with
  | none => (st, .notFound)
  | some job =>
    match job.status with
    | .processing => (st, .view .processing none none)
    | .complete =>
        ({ st with jobs := st.jobs.del request_id }, .view .complete job.markdown none)
    | .error =>
        ({ st with jobs := st.jobs.del request_id }, .view .error none job.error)

end PublicLocal

namespace ModalApp

/-- `str_to_bool` of src/modal-deployment/modal_app.py (lines 266-267):
`v.lower() in ('true', '1', 'yes', 'on')`. -/
def str_to_bool (v : String) : Bool :=
  ["true", "1", "yes", "on"].contains (pyLower v)

end ModalApp

/-! ## Concrete fixtures used by witnesses and counterexamples -/

/-- A plain valid request for the src/marker_server.py variant. -/
def reqM : MarkerLocal.Req :=
  { filename := "doc.pdf", output_format := "markdown", langs := none,
    paginate := "false", format_lines := "false", use_llm := "false",
    disable_image_extraction := "false", redo_inline_math := "false",
    api_key := none }

/-- The same request with LLM enhancement requested but no API key. -/
def reqMllm : MarkerLocal.Req :=
  { reqM with use_llm := "true" }

/-- A plain valid request for the HuggingFace variant. -/
def reqH : HfSpace.Req :=
  { filename := "doc.pdf", content_size := 10, output_format := "markdown",
    langs := none, paginate := "false", format_lines := "false",
    use_llm := "false", disable_image_extraction := "false",
    redo_inline_math := "false", geminiApiKey := none }

/-- The HuggingFace request with LLM enhancement and a credential. -/
def reqHsecret : HfSpace.Req :=
  { reqH with use_llm := "true", geminiApiKey := some "SECRET" }

/-- The HuggingFace request with LLM enhancement but no credential. -/
def reqHllm : HfSpace.Req :=
  { reqH with use_llm := "true" }

/-- A request for the public/scripts variant with LLM enhancement and a
credential supplied. -/
def reqPsecret : PublicLocal.Req :=
  { filename := "doc.pdf", content_size := 10, output_format := "markdown",
    langs := none, paginate := "false", format_lines := "false",
    use_llm := "true", disable_image_extraction := "false",
    redo_inline_math := "false", api_key := some "SECRET" }

/-! ## Reachable job-record values

In every variant the handlers are straight-line: a record value stored in
the jobs dict is either the freshly created "processing" record or that
record after the runner's single update; the Poll handler never modifies a
record, it only deletes it. -/

/-- Job-record values that src/marker_server.py can ever store. -/
inductive MarkerReachable : MarkerLocal.Job → Prop where
  | created (id : String) (req : MarkerLocal.Req) :
      MarkerReachable (MarkerLocal.initJob id req)
  | finished (id : String) (req : MarkerLocal.Req)
      (r : Except MarkerLocal.SubprocErr (Int × String × List String)) :
      MarkerReachable (MarkerLocal.runnerUpdate r (MarkerLocal.initJob id req))

/-- Job-record values that src/huggingface-space/app.py can ever store. -/
inductive HfReachable : HfSpace.Job → Prop where
  | created (id : String) (req : HfSpace.Req) :
      HfReachable (HfSpace.initJob id req)
  | finished (id : String) (req : HfSpace.Req) (r : Except String String) :
      HfReachable (HfSpace.runnerUpdate r (HfSpace.initJob id req))

/-- The §3 record invariant relating the status field to the presence of
the result and error fields. -/
def statusFieldsOk (status : Status) (markdown error : Option String) : Prop :=
  (status = .processing → markdown = none ∧ error = none)
  ∧ (status = .complete → markdown.isSome = true ∧ error = none)
  ∧ (status = .error → error.isSome = true ∧ markdown = none)

theorem FS.add_self (fs : FS) (p : String) : FS.add fs p p = true := by
  simp [FS.add]

theorem FS.remove_self (fs : FS) (p : String) : FS.remove fs p p = false := by
  simp [FS.remove]

/-- The marker_server.py runner update always lands in a terminal status. -/
theorem markerUpdate_terminal
    (r : Except MarkerLocal.SubprocErr (Int × String × List String))
    (job : MarkerLocal.Job) :
    (MarkerLocal.runnerUpdate r job).status ≠ Status.processing := by
  cases r with
  | ok v =>
      obtain ⟨rc, stderr, mds⟩ := v
      by_cases hrc : rc = 0
      · cases mds <;> simp [MarkerLocal.runnerUpdate, hrc]
      · simp [MarkerLocal.runnerUpdate, hrc]
  | error e => cases e <;> simp [MarkerLocal.runnerUpdate]

/-- The HuggingFace runner update always lands in a terminal status. -/
theorem hfUpdate_terminal (r : Except String String) (job : HfSpace.Job) :
    (HfSpace.runnerUpdate r job).status ≠ Status.processing := by
  cases r <;> simp [HfSpace.runnerUpdate]

/-- Shape of src/marker_server.py's Submit output on a valid filename: the
accepted response, the once-updated record in the store, the child-process
flag from `subprocess.run`, and the upload directory removed by the
`finally` block. -/
theorem MarkerLocal.convert_pdf_spec (id : String) (req : MarkerLocal.Req)
    (b : MarkerLocal.ChildBehavior) (st : MarkerLocal.ServerState)
    (h1 : req.filename ≠ "")
    (h2 : pyEndsWith (pyLower req.filename) ".pdf" = true) :
    (MarkerLocal.convert_pdf id req b st).2 =
      .accepted true id ("http://localhost:8000/status/" ++ id)
    ∧ (MarkerLocal.convert_pdf id req b st).1.jobs id =
        some (MarkerLocal.runnerUpdate (MarkerLocal.subprocessRun 300 b).result
          (MarkerLocal.initJob id req))
    ∧ (MarkerLocal.convert_pdf id req b st).1.childRunning =
        (MarkerLocal.subprocessRun 300 b).childRunning
    ∧ (MarkerLocal.convert_pdf id req b st).1.fs (MarkerLocal.uploadDirOf id) = false := by
  simp only [MarkerLocal.convert_pdf]
  rw [if_neg (by simp [h1, h2])]
  exact ⟨rfl, Store.set_self _ _ _, rfl, FS.remove_self _ _⟩

/-- Shape of the HuggingFace Submit output when validation passes and the
conversion returns text: accepted response, "complete" record, upload file
removed. -/
theorem HfSpace.convert_pdf_returns_spec (id : String) (req : HfSpace.Req)
    (t : String) (st : HfSpace.ServerState)
    (h1 : pyEndsWith (pyLower req.filename) ".pdf" = true)
    (h2 : (HfSpace.str_to_bool (some req.use_llm) && pyFalsy req.geminiApiKey) = false)
    (h3 : req.content_size ≤ HfSpace.MAX_PDF_FILE_SIZE) :
    (HfSpace.convert_pdf id req (.returns t) st).2 =
      some (.accepted true id (HfSpace.BASE_URL ++ "/check/" ++ id))
    ∧ (HfSpace.convert_pdf id req (.returns t) st).1.jobs id =
        some (HfSpace.runnerUpdate (.ok t) (HfSpace.initJob id req))
    ∧ (HfSpace.convert_pdf id req (.returns t) st).1.fs (HfSpace.filePathOf id) = false := by
  simp only [HfSpace.convert_pdf]
  rw [if_neg (by simp [h1]), if_neg (by simp [h2]), if_neg (Nat.not_lt.mpr h3)]
  exact ⟨rfl, Store.set_self _ _ _, FS.remove_self _ _⟩

/-- Shape of the HuggingFace Submit output when validation passes and the
conversion raises: accepted response, "error" record, upload file NOT
removed (the `os.remove` on the success path was skipped). -/
theorem HfSpace.convert_pdf_raises_spec (id : String) (req : HfSpace.Req)
    (m : String) (st : HfSpace.ServerState)
    (h1 : pyEndsWith (pyLower req.filename) ".pdf" = true)
    (h2 : (HfSpace.str_to_bool (some req.use_llm) && pyFalsy req.geminiApiKey) = false)
    (h3 : req.content_size ≤ HfSpace.MAX_PDF_FILE_SIZE) :
    (HfSpace.convert_pdf id req (.raises m) st).2 =
      some (.accepted true id (HfSpace.BASE_URL ++ "/check/" ++ id))
    ∧ (HfSpace.convert_pdf id req (.raises m) st).1.jobs id =
        some (HfSpace.runnerUpdate (.error m) (HfSpace.initJob id req))
    ∧ (HfSpace.convert_pdf id req (.raises m) st).1.fs (HfSpace.filePathOf id) =
        st.fs.add (HfSpace.filePathOf id) (HfSpace.filePathOf id) := by
  simp only [HfSpace.convert_pdf]
  rw [if_neg (by simp [h1]), if_neg (by simp [h2]), if_neg (Nat.not_lt.mpr h3)]
  exact ⟨rfl, Store.set_self _ _ _, rfl⟩

/-- Shape of the HuggingFace Submit "output" when validation passes and the
conversion never returns: no response is ever produced and the record is
still the freshly created "processing" one. -/
theorem HfSpace.convert_pdf_hangs_spec (id : String) (req : HfSpace.Req)
    (st : HfSpace.ServerState)
    (h1 : pyEndsWith (pyLower req.filename) ".pdf" = true)
    (h2 : (HfSpace.str_to_bool (some req.use_llm) && pyFalsy req.geminiApiKey) = false)
    (h3 : req.content_size ≤ HfSpace.MAX_PDF_FILE_SIZE) :
    (HfSpace.convert_pdf id req .hangs st).2 = none
    ∧ (HfSpace.convert_pdf id req .hangs st).1.jobs id =
        some (HfSpace.initJob id req) := by
  simp only [HfSpace.convert_pdf]
  rw [if_neg (by simp [h1]), if_neg (by simp [h2]), if_neg (Nat.not_lt.mpr h3)]
  exact ⟨rfl, Store.set_self _ _ _⟩

/-- Shape of the public/scripts Submit output when the conversion raises:
accepted response, "error" record with the stored options untouched, and
the upload file not removed. -/
theorem PublicLocal.submit_raises_shape (id : String) (req : PublicLocal.Req)
    (m : String) (st : PublicLocal.ServerState)
    (h1 : pyEndsWith (pyLower req.filename) ".pdf" = true)
    (h2 : req.content_size ≤ HfSpace.MAX_PDF_FILE_SIZE) :
    (PublicLocal.convert_pdf id req (.raises m) st).2 =
      some (.accepted true id ("http://localhost:8000/status/" ++ id))
    ∧ (PublicLocal.convert_pdf id req (.raises m) st).1.jobs id =
        some (PublicLocal.runnerUpdate (.error m) (PublicLocal.initJob id req)) := by
  simp only [PublicLocal.convert_pdf]
  rw [if_neg (by simp [h1]), if_neg (Nat.not_lt.mpr h2)]
  exact ⟨rfl, Store.set_self _ _ _⟩

/-- Shape of the public/scripts Submit output when the conversion returns
text: accepted response, "complete" record with the stored options —
api_key included — untouched. -/
theorem PublicLocal.submit_returns_shape (id : String) (req : PublicLocal.Req)
    (t : String) (st : PublicLocal.ServerState)
    (h1 : pyEndsWith (pyLower req.filename) ".pdf" = true)
    (h2 : req.content_size ≤ HfSpace.MAX_PDF_FILE_SIZE) :
    (PublicLocal.convert_pdf id req (.returns t) st).2 =
      some (.accepted true id ("http://localhost:8000/status/" ++ id))
    ∧ (PublicLocal.convert_pdf id req (.returns t) st).1.jobs id =
        some (PublicLocal.runnerUpdate (.ok t) (PublicLocal.initJob id req)) := by
  simp only [PublicLocal.convert_pdf]
  rw [if_neg (by simp [h1]), if_neg (Nat.not_lt.mpr h2)]
  exact ⟨rfl, Store.set_self _ _ _⟩

/-- Erase the credential entry from a stored HuggingFace job record. -/
def HfSpace.scrubJob (j : HfSpace.Job) : HfSpace.Job :=
  { j with options := { j.options with gemini_key := none } }

/-- Erase the credential entry from every stored HuggingFace job record. -/
def HfSpace.scrubState (st : HfSpace.ServerState) : HfSpace.ServerState :=
  { st with jobs := fun k => (st.jobs k).map HfSpace.scrubJob }

/-- Erase the credential entry from a stored public/scripts job record. -/
def PublicLocal.scrubJob (j : PublicLocal.Job) : PublicLocal.Job :=
  { j with options := { j.options with api_key := none } }

/-- Erase the credential entry from every stored public/scripts record. -/
def PublicLocal.scrubState (st : PublicLocal.ServerState) : PublicLocal.ServerState :=
  { st with jobs := fun k => (st.jobs k).map PublicLocal.scrubJob }

theorem Store.del_lookup {α : Type} (s : Store α) (k q : String) (v : α)
    (h : Store.del s k q = some v) : s q = some v := by
  by_cases hq : q = k
  · subst hq
    rw [Store.del_self] at h
    exact absurd h (by simp)
  · rwa [Store.del, if_neg hq] at h

/-- A record surviving a Poll was present, unchanged, before the Poll:
check_status only ever deletes whole records, it never rewrites one. -/
theorem hf_poll_never_mutates (id q : String) (st : HfSpace.ServerState)
    (job : HfSpace.Job) (h : ((HfSpace.check_status id st).1).jobs q = some job) :
    st.jobs q = some job := by
  revert h
  cases hj : st.jobs id with
  | none => simp [HfSpace.check_status, hj]
  | some j =>
      cases hs : j.status with
      | processing => simp [HfSpace.check_status, hj, hs]
      | complete =>
          simp only [HfSpace.check_status, hj, hs]
          exact Store.del_lookup st.jobs id q job
      | error =>
          simp only [HfSpace.check_status, hj, hs]
          exact Store.del_lookup st.jobs id q job

/-! ## Claims -/

/-- C10: a string supplied for a boolean option parses to True exactly when
its lowercased form is one of the recognised truthy literals — 'true', '1',
'yes', plus 'on' in the HuggingFace, public-scripts and Modal variants but
not in src/marker_server.py — and every other string (misspellings and
mixed-case negatives included) is silently parsed as False, never rejected. -/
theorem c10_str_to_bool_literals :
    (∀ v : String, MarkerLocal.str_to_bool v = true ↔
      (pyLower v = "true" ∨ pyLower v = "1" ∨ pyLower v = "yes"))
  ∧ (∀ v : String, HfSpace.str_to_bool (some v) = true ↔
      (pyLower v = "true" ∨ pyLower v = "1" ∨ pyLower v = "yes" ∨ pyLower v = "on"))
  ∧ (∀ v : String, PublicLocal.str_to_bool (some v) = true ↔
      (pyLower v = "true" ∨ pyLower v = "1" ∨ pyLower v = "yes" ∨ pyLower v = "on"))
  ∧ (∀ v : String, ModalApp.str_to_bool v = true ↔
      (pyLower v = "true" ∨ pyLower v = "1" ∨ pyLower v = "yes" ∨ pyLower v = "on"))
  ∧ MarkerLocal.str_to_bool "on" = false
  ∧ HfSpace.str_to_bool (some "on") = true
  ∧ PublicLocal.str_to_bool (some "on") = true
  ∧ ModalApp.str_to_bool "on" = true
  ∧ MarkerLocal.str_to_bool "flase" = false
  ∧ MarkerLocal.str_to_bool "No" = false
  ∧ HfSpace.str_to_bool (some "treu") = false
  ∧ ModalApp.str_to_bool "FALSE" = false := by
  refine ⟨fun v => ?_, fun v => ?_, fun v => ?_, fun v => ?_,
    by decide, by decide, by decide, by decide,
    by decide, by decide, by decide, by decide⟩
  · simp [MarkerLocal.str_to_bool, List.contains]
  · simp [HfSpace.str_to_bool, List.contains]
  · simp [PublicLocal.str_to_bool, List.contains]
  · simp [ModalApp.str_to_bool, List.contains]

/-- C2: for every id whose record is terminal, the first Poll returns the
status together with the result (on "complete") or the error message (on
"error") and deletes the record; a Poll against a state where the id is
absent returns 404 and leaves the state unchanged, so every subsequent
Poll for the id keeps returning 404.  Stated for src/marker_server.py's
and src/huggingface-space/app.py's check_status. -/
theorem c2_poll_at_most_once :
    (∀ (id : String) (st : MarkerLocal.ServerState) (job : MarkerLocal.Job),
      st.jobs id = some job → job.status ≠ .processing →
        (MarkerLocal.check_status id st).2 =
          (if job.status = .complete then .view .complete job.markdown none
           else .view .error none job.error)
        ∧ ((MarkerLocal.check_status id st).1).jobs id = none)
  ∧ (∀ (id : String) (st : MarkerLocal.ServerState),
      st.jobs id = none → MarkerLocal.check_status id st = (st, .notFound))
  ∧ (∀ (id : String) (st : HfSpace.ServerState) (job : HfSpace.Job),
      st.jobs id = some job → job.status ≠ .processing →
        (HfSpace.check_status id st).2 =
          (if job.status = .complete then .view .complete job.markdown none
           else .view .error none job.error)
        ∧ ((HfSpace.check_status id st).1).jobs id = none)
  ∧ (∀ (id : String) (st : HfSpace.ServerState),
      st.jobs id = none → HfSpace.check_status id st = (st, .notFound)) := by
  refine ⟨fun id st job h hterm => ?_, fun id st h => ?_,
          fun id st job h hterm => ?_, fun id st h => ?_⟩
  · cases hs : job.status with
    | processing => exact absurd hs hterm
    | complete =>
        simp [MarkerLocal.check_status, h, hs, Store.del_self]
    | error =>
        simp [MarkerLocal.check_status, h, hs, Store.del_self]
  · simp [MarkerLocal.check_status, h]
  · cases hs : job.status with
    | processing => exact absurd hs hterm
    | complete =>
        simp [HfSpace.check_status, h, hs, Store.del_self]
    | error =>
        simp [HfSpace.check_status, h, hs, Store.del_self]
  · simp [HfSpace.check_status, h]

/-- A concrete state holding one terminal ("complete") record, for the C2
witness. -/
def stC2 : MarkerLocal.ServerState :=
  { jobs := Store.empty.set "a"
      { status := .complete, pdf_path := "p", output_dir := "o",
        command := "c", markdown := some "md", error := none },
    fs := FS.empty, childRunning := false }

/-- Witness for C2 at a concrete terminal record. -/
theorem c2_poll_at_most_once_witness :
    (MarkerLocal.check_status "a" stC2).2 =
      (if ({ status := .complete, pdf_path := "p", output_dir := "o",
             command := "c", markdown := some "md",
             error := none } : MarkerLocal.Job).status = .complete
       then PollResponse.view .complete (some "md") none
       else PollResponse.view .error none none)
    ∧ ((MarkerLocal.check_status "a" stC2).1).jobs "a" = none :=
  c2_poll_at_most_once.1 "a" stC2
    { status := .complete, pdf_path := "p", output_dir := "o",
      command := "c", markdown := some "md", error := none }
    rfl (by decide)

/-- C3: every reachable job-record value satisfies the §3 invariant —
while "processing" neither result nor error is present, on "complete" the
result is present and the error absent, on "error" the error message is
present and the result absent.  Stated for the record values
src/marker_server.py and src/huggingface-space/app.py can store. -/
theorem c3_record_invariant :
    (∀ job : MarkerLocal.Job, MarkerReachable job →
      statusFieldsOk job.status job.markdown job.error)
  ∧ (∀ job : HfSpace.Job, HfReachable job →
      statusFieldsOk job.status job.markdown job.error) := by
  constructor
  · intro job h
    cases h with
    | created id req => simp [MarkerLocal.initJob, statusFieldsOk]
    | finished id req r =>
        cases r with
        | ok v =>
            obtain ⟨rc, stderr, mds⟩ := v
            by_cases hrc : rc = 0
            · cases mds <;>
                simp [MarkerLocal.runnerUpdate, MarkerLocal.initJob, statusFieldsOk, hrc]
            · simp [MarkerLocal.runnerUpdate, MarkerLocal.initJob, statusFieldsOk, hrc]
        | error e =>
            cases e <;>
              simp [MarkerLocal.runnerUpdate, MarkerLocal.initJob, statusFieldsOk]
  · intro job h
    cases h with
    | created id req => simp [HfSpace.initJob, statusFieldsOk]
    | finished id req r =>
        cases r <;>
          simp [HfSpace.runnerUpdate, HfSpace.initJob, statusFieldsOk]

/-- Witness for C3 at a concrete freshly created record. -/
theorem c3_record_invariant_witness :
    statusFieldsOk (MarkerLocal.initJob "a" reqM).status
      (MarkerLocal.initJob "a" reqM).markdown
      (MarkerLocal.initJob "a" reqM).error :=
  c3_record_invariant.1 (MarkerLocal.initJob "a" reqM)
    (MarkerReachable.created "a" reqM)

/-- C1 counterexample: submitting a valid file to src/marker_server.py's
convert_pdf with a child process that takes 10 seconds — by the time
Submit returns its success JSON, the stored record is already "complete":
the conversion ran to completion inside the Submit handler
(`subprocess.run` at line 146 blocks), so the record the caller could
observe at Submit's return is never the promised "processing" record and
Submit's return did wait for the conversion. -/
theorem c1_counterexample :
    ((MarkerLocal.convert_pdf "id0" reqM
        (.runsFor 10 0 "" ["# hi"]) MarkerLocal.initState).2 =
      SubmitResponse.accepted true "id0" "http://localhost:8000/status/id0")
    ∧ (((MarkerLocal.convert_pdf "id0" reqM
        (.runsFor 10 0 "" ["# hi"]) MarkerLocal.initState).1.jobs "id0").map
          MarkerLocal.Job.status = some Status.complete) :=
  ⟨rfl, rfl⟩

/-- C1 amended: for every valid submission Submit does return success with
the id and a status-check URL, and the same response shape regardless of
the conversion's outcome — but it returns only after the conversion has
run inside the handler: at the moment of return the stored record is
already terminal, never "processing".  Stated for src/marker_server.py
(every child behaviour) and src/huggingface-space/app.py (every
terminating conversion behaviour; a non-terminating one hangs the
handler). -/
theorem c1_submit_returns_after_conversion :
    (∀ (id : String) (req : MarkerLocal.Req) (b : MarkerLocal.ChildBehavior)
       (st : MarkerLocal.ServerState),
      req.filename ≠ "" →
      pyEndsWith (pyLower req.filename) ".pdf" = true →
        (MarkerLocal.convert_pdf id req b st).2 =
          .accepted true id ("http://localhost:8000/status/" ++ id)
        ∧ ∃ job, (MarkerLocal.convert_pdf id req b st).1.jobs id = some job
            ∧ job.status ≠ .processing)
  ∧ (∀ (id : String) (req : HfSpace.Req) (b : HfSpace.ConvBehavior)
       (st : HfSpace.ServerState),
      pyEndsWith (pyLower req.filename) ".pdf" = true →
      (HfSpace.str_to_bool (some req.use_llm) && pyFalsy req.geminiApiKey) = false →
      req.content_size ≤ HfSpace.MAX_PDF_FILE_SIZE →
      b ≠ .hangs →
        (HfSpace.convert_pdf id req b st).2 =
          some (.accepted true id (HfSpace.BASE_URL ++ "/check/" ++ id))
        ∧ ∃ job, (HfSpace.convert_pdf id req b st).1.jobs id = some job
            ∧ job.status ≠ .processing) := by
  constructor
  · intro id req b st h1 h2
    simp only [MarkerLocal.convert_pdf]
    rw [if_neg (by simp [h1, h2])]
    exact ⟨rfl,
      MarkerLocal.runnerUpdate (MarkerLocal.subprocessRun 300 b).result
        (MarkerLocal.initJob id req),
      Store.set_self _ _ _, markerUpdate_terminal _ _⟩
  · intro id req b st h1 h2 h3 hb
    simp only [HfSpace.convert_pdf]
    rw [if_neg (by simp [h1]), if_neg (by simp [h2]), if_neg (by simp [Nat.not_lt.mpr h3])]
    cases b with
    | returns text =>
        exact ⟨rfl,
          HfSpace.runnerUpdate (.ok text) (HfSpace.initJob id req),
          Store.set_self _ _ _, hfUpdate_terminal _ _⟩
    | raises m =>
        exact ⟨rfl,
          HfSpace.runnerUpdate (.error m) (HfSpace.initJob id req),
          Store.set_self _ _ _, hfUpdate_terminal _ _⟩
    | hangs => exact absurd rfl hb

/-- Witness for the amended C1 at a concrete valid request. -/
theorem c1_submit_returns_after_conversion_witness :
    (MarkerLocal.convert_pdf "id1" reqM .hangs MarkerLocal.initState).2 =
      .accepted true "id1" "http://localhost:8000/status/id1"
    ∧ ∃ job, (MarkerLocal.convert_pdf "id1" reqM .hangs
        MarkerLocal.initState).1.jobs "id1" = some job
        ∧ job.status ≠ .processing :=
  c1_submit_returns_after_conversion.1 "id1" reqM .hangs MarkerLocal.initState
    (by decide) (by decide)

/-- C5 counterexample: src/huggingface-space/app.py places no deadline
around `convert_single_pdf` (process_pdf, lines 189-229).  A conversion
that never returns hangs the Submit handler forever: no response is
produced and the job record stays "processing" — it never reaches a
terminal "error" record, timed-out or otherwise. -/
theorem c5_counterexample :
    ((HfSpace.convert_pdf "id4" reqH .hangs HfSpace.initState).2 = none)
    ∧ (((HfSpace.convert_pdf "id4" reqH .hangs HfSpace.initState).1.jobs "id4").map
        HfSpace.Job.status = some Status.processing) :=
  ⟨rfl, rfl⟩

/-- C5 amended: deadline enforcement holds in src/marker_server.py — a
child exceeding the 300-second timeout, or one that never finishes, yields
a terminal "error" record whose message is exactly
"Conversion timed out (5 minutes)", and the child process is killed by
`subprocess.run` rather than left running — but the HuggingFace variant
enforces no deadline at all: a conversion that never returns leaves its
record "processing" forever with no response from Submit. -/
theorem c5_timeout_enforcement :
    (∀ (id : String) (req : MarkerLocal.Req) (st : MarkerLocal.ServerState)
       (d : Nat) (rc : Int) (stderr : String) (mds : List String),
      req.filename ≠ "" →
      pyEndsWith (pyLower req.filename) ".pdf" = true →
      300 < d →
        (MarkerLocal.convert_pdf id req (.runsFor d rc stderr mds) st).1.jobs id =
          some (MarkerLocal.runnerUpdate (.error .timeoutExpired)
            (MarkerLocal.initJob id req))
        ∧ (MarkerLocal.runnerUpdate (.error .timeoutExpired)
            (MarkerLocal.initJob id req)).status = .error
        ∧ (MarkerLocal.runnerUpdate (.error .timeoutExpired)
            (MarkerLocal.initJob id req)).error =
              some "Conversion timed out (5 minutes)"
        ∧ (MarkerLocal.convert_pdf id req (.runsFor d rc stderr mds) st).1.childRunning
            = false)
  ∧ (∀ (id : String) (req : MarkerLocal.Req) (st : MarkerLocal.ServerState),
      req.filename ≠ "" →
      pyEndsWith (pyLower req.filename) ".pdf" = true →
        (MarkerLocal.convert_pdf id req .hangs st).1.jobs id =
          some (MarkerLocal.runnerUpdate (.error .timeoutExpired)
            (MarkerLocal.initJob id req))
        ∧ (MarkerLocal.convert_pdf id req .hangs st).1.childRunning = false)
  ∧ (∀ (id : String) (req : HfSpace.Req) (st : HfSpace.ServerState),
      pyEndsWith (pyLower req.filename) ".pdf" = true →
      (HfSpace.str_to_bool (some req.use_llm) && pyFalsy req.geminiApiKey) = false →
      req.content_size ≤ HfSpace.MAX_PDF_FILE_SIZE →
        (HfSpace.convert_pdf id req .hangs st).2 = none
        ∧ ((HfSpace.convert_pdf id req .hangs st).1.jobs id).map HfSpace.Job.status
            = some Status.processing) := by
  refine ⟨fun id req st d rc stderr mds h1 h2 hd => ?_,
          fun id req st h1 h2 => ?_, fun id req st h1 h2 h3 => ?_⟩
  · have hrun : MarkerLocal.subprocessRun 300 (.runsFor d rc stderr mds) =
        { result := .error .timeoutExpired, childRunning := false } := by
      simp only [MarkerLocal.subprocessRun]
      rw [if_neg (Nat.not_le.mpr hd)]
    obtain ⟨-, hjobs, hchild, -⟩ :=
      MarkerLocal.convert_pdf_spec id req (.runsFor d rc stderr mds) st h1 h2
    rw [hrun] at hjobs hchild
    exact ⟨hjobs, rfl, rfl, hchild⟩
  · obtain ⟨-, hjobs, hchild, -⟩ :=
      MarkerLocal.convert_pdf_spec id req .hangs st h1 h2
    exact ⟨hjobs, hchild⟩
  · obtain ⟨hresp, hjobs⟩ := HfSpace.convert_pdf_hangs_spec id req st h1 h2 h3
    rw [hjobs]
    exact ⟨hresp, rfl⟩

/-- Witness for the amended C5: a child that would run 301 seconds against
the 300-second deadline, and a hanging HuggingFace conversion. -/
theorem c5_timeout_enforcement_witness :
    ((MarkerLocal.convert_pdf "id5" reqM (.runsFor 301 0 "" [])
        MarkerLocal.initState).1.jobs "id5" =
      some (MarkerLocal.runnerUpdate (.error .timeoutExpired)
        (MarkerLocal.initJob "id5" reqM)))
    ∧ (MarkerLocal.runnerUpdate (.error .timeoutExpired)
        (MarkerLocal.initJob "id5" reqM)).status = .error
    ∧ (MarkerLocal.runnerUpdate (.error .timeoutExpired)
        (MarkerLocal.initJob "id5" reqM)).error =
          some "Conversion timed out (5 minutes)"
    ∧ (MarkerLocal.convert_pdf "id5" reqM (.runsFor 301 0 "" [])
        MarkerLocal.initState).1.childRunning = false :=
  c5_timeout_enforcement.1 "id5" reqM MarkerLocal.initState 301 0 "" []
    (by decide) (by decide) (by decide)

/-- C6 counterexample: src/marker_server.py has no key-presence check —
submitting with use_llm="true" and no API key does not fail: Submit
returns success with the id and a job record is created (and the
conversion simply runs without the credential). -/
theorem c6_counterexample :
    ((MarkerLocal.convert_pdf "id2" reqMllm (.runsFor 10 0 "" ["# hi"])
        MarkerLocal.initState).2 =
      SubmitResponse.accepted true "id2" "http://localhost:8000/status/id2")
    ∧ (((MarkerLocal.convert_pdf "id2" reqMllm (.runsFor 10 0 "" ["# hi"])
        MarkerLocal.initState).1.jobs "id2").isSome = true) :=
  ⟨rfl, rfl⟩

/-- C6 amended: only the HuggingFace variant enforces the contract — there
a Submit with LLM enhancement enabled and a missing (or empty) credential
fails synchronously with a 400 client error and leaves the state, hence
the job store, untouched.  src/marker_server.py performs no such
validation: the same submission is accepted and a job record is created. -/
theorem c6_llm_key_validation :
    (∀ (id : String) (req : HfSpace.Req) (b : HfSpace.ConvBehavior)
       (st : HfSpace.ServerState),
      pyEndsWith (pyLower req.filename) ".pdf" = true →
      HfSpace.str_to_bool (some req.use_llm) = true →
      pyFalsy req.geminiApiKey = true →
        HfSpace.convert_pdf id req b st =
          (st, some (.httpError 400
            "Gemini API key is required when LLM Enhancement is enabled")))
  ∧ (∀ (id : String) (req : MarkerLocal.Req) (b : MarkerLocal.ChildBehavior)
       (st : MarkerLocal.ServerState),
      req.filename ≠ "" →
      pyEndsWith (pyLower req.filename) ".pdf" = true →
      MarkerLocal.str_to_bool req.use_llm = true →
      req.api_key = none →
        (MarkerLocal.convert_pdf id req b st).2 =
          .accepted true id ("http://localhost:8000/status/" ++ id)
        ∧ ((MarkerLocal.convert_pdf id req b st).1.jobs id).isSome = true) := by
  constructor
  · intro id req b st h1 h2 h3
    simp only [HfSpace.convert_pdf]
    rw [if_neg (by simp [h1]), if_pos (by simp [h2, h3])]
  · intro id req b st h1 h2 _ _
    obtain ⟨hresp, hjobs, -, -⟩ := MarkerLocal.convert_pdf_spec id req b st h1 h2
    rw [hjobs]
    exact ⟨hresp, rfl⟩

/-- Witness for the amended C6: the HuggingFace variant rejects a concrete
keyless LLM submission; marker_server.py accepts the analogous one. -/
theorem c6_llm_key_validation_witness :
    (HfSpace.convert_pdf "id3" reqHllm .hangs HfSpace.initState =
      (HfSpace.initState, some (.httpError 400
        "Gemini API key is required when LLM Enhancement is enabled")))
    ∧ ((MarkerLocal.convert_pdf "id3" reqMllm .hangs MarkerLocal.initState).2 =
        .accepted true "id3" "http://localhost:8000/status/id3"
      ∧ ((MarkerLocal.convert_pdf "id3" reqMllm .hangs
          MarkerLocal.initState).1.jobs "id3").isSome = true) :=
  ⟨c6_llm_key_validation.1 "id3" reqHllm .hangs HfSpace.initState
      (by decide) (by decide) (by decide),
   c6_llm_key_validation.2 "id3" reqMllm .hangs MarkerLocal.initState
      (by decide) (by decide) (by decide) rfl⟩

/-- C9: a failure of the conversion itself is never surfaced through
Submit.  In src/marker_server.py every failing child behaviour — deadline
exceeded, hang, non-zero exit, missing output file, or an exception from
`subprocess.run` — still yields the success JSON with the id, while the
failure lands in a terminal "error" record whose message Poll (and only
Poll) then returns.  Likewise in src/public/scripts/marker_server.py for a
conversion that raises. -/
theorem c9_failures_only_via_poll :
    (∀ (id : String) (req : MarkerLocal.Req) (b : MarkerLocal.ChildBehavior)
       (st : MarkerLocal.ServerState),
      req.filename ≠ "" →
      pyEndsWith (pyLower req.filename) ".pdf" = true →
      (match b with
        | .runsFor d rc _ mds => 300 < d ∨ rc ≠ 0 ∨ mds = []
        | .hangs => True
        | .raises _ => True) →
        (MarkerLocal.convert_pdf id req b st).2 =
          .accepted true id ("http://localhost:8000/status/" ++ id)
        ∧ ∃ e, ∃ job, (MarkerLocal.convert_pdf id req b st).1.jobs id = some job
            ∧ job.status = .error ∧ job.error = some e
            ∧ (MarkerLocal.check_status id (MarkerLocal.convert_pdf id req b st).1).2
                = .view .error none (some e))
  ∧ (∀ (id : String) (req : PublicLocal.Req) (m : String)
       (st : PublicLocal.ServerState),
      pyEndsWith (pyLower req.filename) ".pdf" = true →
      req.content_size ≤ HfSpace.MAX_PDF_FILE_SIZE →
        (PublicLocal.convert_pdf id req (.raises m) st).2 =
          some (.accepted true id ("http://localhost:8000/status/" ++ id))
        ∧ ∃ job, (PublicLocal.convert_pdf id req (.raises m) st).1.jobs id = some job
            ∧ job.status = .error ∧ job.error = some m
            ∧ (PublicLocal.check_status id
                (PublicLocal.convert_pdf id req (.raises m) st).1).2
                  = .view .error none (some m)) := by
  constructor
  · intro id req b st h1 h2 hfail
    obtain ⟨hresp, hjobs, -, -⟩ := MarkerLocal.convert_pdf_spec id req b st h1 h2
    refine ⟨hresp, ?_⟩
    have herr : ∃ e,
        MarkerLocal.runnerUpdate (MarkerLocal.subprocessRun 300 b).result
          (MarkerLocal.initJob id req) =
        { MarkerLocal.initJob id req with status := .error, error := some e } := by
      cases b with
      | runsFor d rc stderr mds =>
          by_cases hd : d ≤ 300
          · rcases hfail with hgt | hrc | hmds
            · exact absurd hd (Nat.not_le.mpr hgt)
            · exact ⟨"Marker failed: " ++ stderr, by
                simp [MarkerLocal.subprocessRun, hd, MarkerLocal.runnerUpdate, hrc]⟩
            · subst hmds
              by_cases hrc : rc = 0
              · exact ⟨"No markdown file generated", by
                  simp [MarkerLocal.subprocessRun, hd, MarkerLocal.runnerUpdate, hrc]⟩
              · exact ⟨"Marker failed: " ++ stderr, by
                  simp [MarkerLocal.subprocessRun, hd, MarkerLocal.runnerUpdate, hrc]⟩
          · exact ⟨"Conversion timed out (5 minutes)", by
              simp [MarkerLocal.subprocessRun, hd, MarkerLocal.runnerUpdate]⟩
      | hangs =>
          exact ⟨"Conversion timed out (5 minutes)", by
            simp [MarkerLocal.subprocessRun, MarkerLocal.runnerUpdate]⟩
      | raises m =>
          exact ⟨m, by simp [MarkerLocal.subprocessRun, MarkerLocal.runnerUpdate]⟩
    obtain ⟨e, he⟩ := herr
    rw [he] at hjobs
    refine ⟨e, _, hjobs, rfl, rfl, ?_⟩
    simp [MarkerLocal.check_status, hjobs]
  · intro id req m st h1 h2
    obtain ⟨hresp, hjobs⟩ := PublicLocal.submit_raises_shape id req m st h1 h2
    refine ⟨hresp, _, hjobs, rfl, rfl, ?_⟩
    simp [PublicLocal.check_status, hjobs, PublicLocal.runnerUpdate]

/-- Witness for C9: a child exiting non-zero against marker_server.py. -/
theorem c9_failures_only_via_poll_witness :
    (MarkerLocal.convert_pdf "id6" reqM (.runsFor 5 1 "boom" [])
        MarkerLocal.initState).2 =
      .accepted true "id6" "http://localhost:8000/status/id6"
    ∧ ∃ e, ∃ job, (MarkerLocal.convert_pdf "id6" reqM (.runsFor 5 1 "boom" [])
        MarkerLocal.initState).1.jobs "id6" = some job
        ∧ job.status = .error ∧ job.error = some e
        ∧ (MarkerLocal.check_status "id6"
            (MarkerLocal.convert_pdf "id6" reqM (.runsFor 5 1 "boom" [])
              MarkerLocal.initState).1).2 = .view .error none (some e) :=
  c9_failures_only_via_poll.1 "id6" reqM (.runsFor 5 1 "boom" [])
    MarkerLocal.initState (by decide) (by decide) (by decide)

/-- C4 counterexample: in src/public/scripts/marker_server.py the job
record stores the caller's credential in its options
(`"api_key": api_key`, line 125) and never removes it: after the
conversion (which used the key) has finished and the record is terminal,
the persisted record still carries the credential — it is observable in a
field of the persisted job record beyond the conversion call that used
it. -/
theorem c4_counterexample :
    (((PublicLocal.convert_pdf "id7" reqPsecret (.returns "hello")
        PublicLocal.initState).1.jobs "id7").map
      (fun j => (j.status, j.options.api_key))) =
      some (Status.complete, some "SECRET") :=
  rfl

/-- C4 amended: the credential can never be observed through Poll — in
both cited variants the Poll response is built only from the record's
status/markdown/error fields, so it is unchanged when every stored
credential is erased — and in the HuggingFace variant the credential is
additionally removed from the persisted record as soon as the conversion
call finishes (on success and on error alike).  In the public/scripts
variant, however, the credential remains a field of the persisted record
until the record is deleted. -/
theorem c4_credential_not_observable :
    (∀ (id : String) (st : HfSpace.ServerState),
      (HfSpace.check_status id (HfSpace.scrubState st)).2 =
        (HfSpace.check_status id st).2)
  ∧ (∀ (id : String) (st : PublicLocal.ServerState),
      (PublicLocal.check_status id (PublicLocal.scrubState st)).2 =
        (PublicLocal.check_status id st).2)
  ∧ (∀ (id : String) (req : HfSpace.Req) (b : HfSpace.ConvBehavior)
       (st : HfSpace.ServerState),
      pyEndsWith (pyLower req.filename) ".pdf" = true →
      (HfSpace.str_to_bool (some req.use_llm) && pyFalsy req.geminiApiKey) = false →
      req.content_size ≤ HfSpace.MAX_PDF_FILE_SIZE →
      b ≠ .hangs →
        ((HfSpace.convert_pdf id req b st).1.jobs id).map
          (fun j => j.options.gemini_key) = some none) := by
  refine ⟨fun id st => ?_, fun id st => ?_, fun id req b st h1 h2 h3 hb => ?_⟩
  · cases hj : st.jobs id with
    | none => simp [HfSpace.check_status, HfSpace.scrubState, hj]
    | some j =>
        cases hs : j.status <;>
          simp [HfSpace.check_status, HfSpace.scrubState, HfSpace.scrubJob, hj, hs]
  · cases hj : st.jobs id with
    | none => simp [PublicLocal.check_status, PublicLocal.scrubState, hj]
    | some j =>
        cases hs : j.status <;>
          simp [PublicLocal.check_status, PublicLocal.scrubState,
            PublicLocal.scrubJob, hj, hs]
  · cases b with
    | returns t =>
        obtain ⟨-, hjobs, -⟩ := HfSpace.convert_pdf_returns_spec id req t st h1 h2 h3
        rw [hjobs]
        simp [HfSpace.runnerUpdate]
    | raises m =>
        obtain ⟨-, hjobs, -⟩ := HfSpace.convert_pdf_raises_spec id req m st h1 h2 h3
        rw [hjobs]
        simp [HfSpace.runnerUpdate]
    | hangs => exact absurd rfl hb

/-- Witness for the amended C4: the credential-erasure conjunct at a
concrete submission that used a credential. -/
theorem c4_credential_not_observable_witness :
    ((HfSpace.convert_pdf "id10" reqHsecret (.returns "t")
        HfSpace.initState).1.jobs "id10").map
      (fun j => j.options.gemini_key) = some none :=
  c4_credential_not_observable.2.2 "id10" reqHsecret (.returns "t")
    HfSpace.initState (by decide) (by decide) (by decide) (by decide)

/-- C7 counterexample: cleanup does not happen on the error path.  In the
HuggingFace variant a conversion that raises leaves the uploaded input
file on disk: after the terminal "error" record is retrieved (and deleted)
by Poll, the uploaded artifact for that job still exists.  In
src/marker_server.py, retrieving an "error" record likewise leaves the
job's output directory in place (check_status removes it only on the
"complete" path). -/
theorem c7_counterexample :
    ((HfSpace.check_status "id8"
        (HfSpace.convert_pdf "id8" reqH (.raises "boom") HfSpace.initState).1).2 =
      .view .error none (some "boom"))
    ∧ (((HfSpace.check_status "id8"
        (HfSpace.convert_pdf "id8" reqH (.raises "boom")
          HfSpace.initState).1).1).jobs "id8" = none)
    ∧ ((HfSpace.check_status "id8"
        (HfSpace.convert_pdf "id8" reqH (.raises "boom")
          HfSpace.initState).1).1.fs (HfSpace.filePathOf "id8") = true)
    ∧ ((MarkerLocal.check_status "id8"
        (MarkerLocal.convert_pdf "id8" reqM (.runsFor 5 1 "boom" [])
          MarkerLocal.initState).1).1.fs (MarkerLocal.outputDirOf "id8") = true)
    ∧ (((MarkerLocal.check_status "id8"
        (MarkerLocal.convert_pdf "id8" reqM (.runsFor 5 1 "boom" [])
          MarkerLocal.initState).1).1).jobs "id8" = none) :=
  ⟨rfl, rfl, rfl, rfl, rfl⟩

/-- C7 amended: artifact cleanup holds on the success path only.  In
src/marker_server.py the job's upload directory is removed by the end of
every Submit (success or failure), and the output directory is removed at
the first Poll that retrieves a "complete" record (which also deletes the
record); in the HuggingFace variant the uploaded input file is removed as
soon as the conversion succeeds.  On the error path the HuggingFace input
file and the marker_server.py output directory are left behind (see the
counterexample). -/
theorem c7_cleanup_on_success :
    (∀ (id : String) (req : MarkerLocal.Req) (b : MarkerLocal.ChildBehavior)
       (st : MarkerLocal.ServerState),
      req.filename ≠ "" →
      pyEndsWith (pyLower req.filename) ".pdf" = true →
        (MarkerLocal.convert_pdf id req b st).1.fs (MarkerLocal.uploadDirOf id)
          = false)
  ∧ (∀ (id : String) (req : MarkerLocal.Req) (st : MarkerLocal.ServerState)
       (d : Nat) (stderr md : String) (tl : List String),
      req.filename ≠ "" →
      pyEndsWith (pyLower req.filename) ".pdf" = true →
      d ≤ 300 →
        ((MarkerLocal.check_status id
            (MarkerLocal.convert_pdf id req (.runsFor d 0 stderr (md :: tl)) st).1).1.fs
          (MarkerLocal.outputDirOf id) = false)
        ∧ ((MarkerLocal.check_status id
            (MarkerLocal.convert_pdf id req (.runsFor d 0 stderr (md :: tl)) st).1).1.jobs
          id = none))
  ∧ (∀ (id : String) (req : HfSpace.Req) (t : String) (st : HfSpace.ServerState),
      pyEndsWith (pyLower req.filename) ".pdf" = true →
      (HfSpace.str_to_bool (some req.use_llm) && pyFalsy req.geminiApiKey) = false →
      req.content_size ≤ HfSpace.MAX_PDF_FILE_SIZE →
        (HfSpace.convert_pdf id req (.returns t) st).1.fs (HfSpace.filePathOf id)
          = false) := by
  refine ⟨fun id req b st h1 h2 => ?_,
          fun id req st d stderr md tl h1 h2 hd => ?_,
          fun id req t st h1 h2 h3 => ?_⟩
  · exact (MarkerLocal.convert_pdf_spec id req b st h1 h2).2.2.2
  · obtain ⟨-, hjobs, -, -⟩ :=
      MarkerLocal.convert_pdf_spec id req (.runsFor d 0 stderr (md :: tl)) st h1 h2
    have hup : MarkerLocal.runnerUpdate
        (MarkerLocal.subprocessRun 300 (.runsFor d 0 stderr (md :: tl))).result
        (MarkerLocal.initJob id req) =
        { MarkerLocal.initJob id req with status := .complete, markdown := some md } := by
      simp [MarkerLocal.subprocessRun, hd, MarkerLocal.runnerUpdate]
    rw [hup] at hjobs
    constructor
    · simp [MarkerLocal.check_status, hjobs, MarkerLocal.initJob, FS.remove_self]
    · simp [MarkerLocal.check_status, hjobs, Store.del_self]
  · exact (HfSpace.convert_pdf_returns_spec id req t st h1 h2 h3).2.2

/-- Witness for the amended C7: a concrete successful conversion in each
cited variant. -/
theorem c7_cleanup_on_success_witness :
    ((MarkerLocal.check_status "id11"
        (MarkerLocal.convert_pdf "id11" reqM (.runsFor 5 0 "" ["# hi"])
          MarkerLocal.initState).1).1.fs (MarkerLocal.outputDirOf "id11") = false)
    ∧ ((MarkerLocal.check_status "id11"
        (MarkerLocal.convert_pdf "id11" reqM (.runsFor 5 0 "" ["# hi"])
          MarkerLocal.initState).1).1.jobs "id11" = none) :=
  c7_cleanup_on_success.2.1 "id11" reqM MarkerLocal.initState 5 "" "# hi" []
    (by decide) (by decide) (by decide)

/-- C8 counterexample: in src/huggingface-space/app.py the options
snapshot captured at submission holds the credential entry, and after the
runner completes the stored options have lost it (`del ..._gemini_key`,
lines 157-158) — the stored options were mutated after record creation. -/
theorem c8_counterexample :
    ((HfSpace.mkOptions reqHsecret).gemini_key = some "SECRET")
    ∧ (((HfSpace.convert_pdf "id9" reqHsecret (.returns "t")
        HfSpace.initState).1.jobs "id9").map (fun j => j.options.gemini_key) =
      some none) :=
  ⟨rfl, rfl⟩

/-- C8 amended: apart from the single removal of the `_gemini_key` entry
when the conversion call finishes, the options snapshot is never mutated:
after any terminating conversion the stored options are exactly the
creation-time snapshot with only the credential entry dropped, and Poll
(and record deletion) never alters any stored record. -/
theorem c8_options_immutable_except_credential :
    (∀ (id : String) (req : HfSpace.Req) (b : HfSpace.ConvBehavior)
       (st : HfSpace.ServerState),
      pyEndsWith (pyLower req.filename) ".pdf" = true →
      (HfSpace.str_to_bool (some req.use_llm) && pyFalsy req.geminiApiKey) = false →
      req.content_size ≤ HfSpace.MAX_PDF_FILE_SIZE →
      b ≠ .hangs →
        ((HfSpace.convert_pdf id req b st).1.jobs id).map (fun j => j.options) =
          some { HfSpace.mkOptions req with gemini_key := none })
  ∧ (∀ (id q : String) (st : HfSpace.ServerState) (job : HfSpace.Job),
      ((HfSpace.check_status id st).1).jobs q = some job →
        st.jobs q = some job) := by
  constructor
  · intro id req b st h1 h2 h3 hb
    cases b with
    | returns t =>
        obtain ⟨-, hjobs, -⟩ := HfSpace.convert_pdf_returns_spec id req t st h1 h2 h3
        rw [hjobs]
        simp [HfSpace.runnerUpdate, HfSpace.initJob]
    | raises m =>
        obtain ⟨-, hjobs, -⟩ := HfSpace.convert_pdf_raises_spec id req m st h1 h2 h3
        rw [hjobs]
        simp [HfSpace.runnerUpdate, HfSpace.initJob]
    | hangs => exact absurd rfl hb
  · exact fun id q st job h => hf_poll_never_mutates id q st job h

/-- Witness for the amended C8 at a concrete credentialed submission. -/
theorem c8_options_immutable_except_credential_witness :
    ((HfSpace.convert_pdf "id12" reqHsecret (.raises "oops")
        HfSpace.initState).1.jobs "id12").map (fun j => j.options) =
      some { HfSpace.mkOptions reqHsecret with gemini_key := none } :=
  c8_options_immutable_except_credential.1 "id12" reqHsecret (.raises "oops")
    HfSpace.initState (by decide) (by decide) (by decide) (by decide)
